import Mathlib

/-!
Shallow embedding of the `streamdeck-todoist` plugin
(`src/actions/todoist-monitor.ts`) and proofs about its
color-ladder policy, renderer, fetch pipeline and poller lifecycle.

Modelling conventions:
* JS `number | null` settings fields become `Option Int`; JS truthiness of
  such a field (`if (settings.g_cutoff_1)`) is `numTruthy`: `none` and
  `some 0` are falsy, everything else truthy.
* JS `string | null` color fields become `Option String`; the fallback
  `x || "green"` is `strOr`: `none` and `some ""` fall back to the default.
* The font-size arithmetic runs on JS floating-point values only through
  `*`, `/` and `Math.min` on exactly representable small quantities, except
  that a zero-length text makes `maxWidth / 0` evaluate to `Infinity`.
  We model the needed fragment of JS numbers as `JNum` (a rational, or an
  infinity, or NaN), with JS division and `Math.min` semantics.
* The remote HTTP call is modelled as an environment function from
  (token, filter) to an `HttpResponse`; `getTasks` turns a non-ok response
  into a thrown error, modelled as `Except RemoteQueryError`.
* The SVG template string is modelled structurally (`ButtonSvg`) carrying
  every computed quantity of the template: canvas size, background fill,
  and the two text lines with their computed font sizes.
* The per-instance interval map is an association list from action id to a
  numeric timer handle; `setInterval` is modelled by allocating a fresh
  handle from a counter. Host calls issued by a handler are returned as an
  explicit list of `Effect`s.
-/

/-- Per-button settings (`QuerySettings` in the source). -/
structure QuerySettings where
  item_name : String
  item_filter : String
  g_cutoff_1 : Option Int
  g_cutoff_2 : Option Int
  g_cutoff_3 : Option Int
  g_color_1 : Option String
  g_color_2 : Option String
  g_color_3 : Option String
  g_color_4 : Option String
  b_cutoff_1 : Option Int
  b_cutoff_2 : Option Int
  b_cutoff_3 : Option Int
  b_color_1 : Option String
  b_color_2 : Option String
  b_color_3 : Option String
  b_color_4 : Option String
deriving DecidableEq, Repr

/-- Global plugin settings (`TodoistSettings` in the source). -/
structure TodoistSettings where
  apiToken : String
deriving DecidableEq, Repr

/-- A task returned by the remote service (`Task` in the source; renamed
here because `Task` is taken by the Lean core library). -/
structure RemoteTask where
  id : String
  content : String
deriving DecidableEq, Repr

/-- JS truthiness of a `number | null` value: `null` and `0` are falsy. -/
def numTruthy : Option Int → Bool
  | some n => n != 0
  | none => false

/-- The numeric value of a `number | null` field; JS coerces `null` to 0 in
comparisons (only ever reached under a truthiness guard here). -/
def numValue : Option Int → Int
  | some n => n
  | none => 0

/-- JS `x || d` for a `string | null` value `x`: `null` and `""` are falsy
and yield the default. -/
def strOr : Option String → String → String
  | some s, d => if s = "" then d else s
  | none, d => d

/-- `TodoistMonitor.getColor`, translated clause by clause from the source:
two threshold ladders (G, then B), each guarded by truthiness of its first
cutoff, with per-rung truthiness guards and color defaults, else white. -/
def getColor (taskCount : Int) (s : QuerySettings) : String :=
  if numTruthy s.g_cutoff_1 then
    if taskCount ≥ numValue s.g_cutoff_1 then strOr s.g_color_1 "green"
    else if numTruthy s.g_cutoff_2 ∧ taskCount ≥ numValue s.g_cutoff_2 then
      strOr s.g_color_2 "yellow"
    else if numTruthy s.g_cutoff_3 ∧ taskCount ≥ numValue s.g_cutoff_3 then
      strOr s.g_color_3 "orange"
    else strOr s.g_color_4 "red"
  else if numTruthy s.b_cutoff_1 then
    if taskCount ≥ numValue s.b_cutoff_1 then strOr s.b_color_1 "red"
    else if numTruthy s.b_cutoff_2 ∧ taskCount ≥ numValue s.b_cutoff_2 then
      strOr s.b_color_2 "orange"
    else if numTruthy s.b_cutoff_3 ∧ taskCount ≥ numValue s.b_cutoff_3 then
      strOr s.b_color_3 "yellow"
    else strOr s.b_color_4 "green"
  else "white"

/-- Ladder G as the spec states it (section 4.4, rule 1), written
independently of `getColor` for the refinement comparison; "set" is JS
truthiness, the notion the code uses. -/
def ladderG_spec (count : Int) (s : QuerySettings) : String :=
  if count ≥ numValue s.g_cutoff_1 then strOr s.g_color_1 "green"
  else if numTruthy s.g_cutoff_2 ∧ count ≥ numValue s.g_cutoff_2 then
    strOr s.g_color_2 "yellow"
  else if numTruthy s.g_cutoff_3 ∧ count ≥ numValue s.g_cutoff_3 then
    strOr s.g_color_3 "orange"
  else strOr s.g_color_4 "red"

/-- Ladder B as the spec states it (section 4.4, rule 2), written
independently of `getColor` for the refinement comparison. -/
def ladderB_spec (count : Int) (s : QuerySettings) : String :=
  if count ≥ numValue s.b_cutoff_1 then strOr s.b_color_1 "red"
  else if numTruthy s.b_cutoff_2 ∧ count ≥ numValue s.b_cutoff_2 then
    strOr s.b_color_2 "orange"
  else if numTruthy s.b_cutoff_3 ∧ count ≥ numValue s.b_cutoff_3 then
    strOr s.b_color_3 "yellow"
  else strOr s.b_color_4 "green"

/-- The fragment of JS floating-point values reachable in the renderer:
finite values are exact rationals here (the source only multiplies a string
length by 0.45, divides 140 by the result and takes a minimum, so no
rounding occurs on the ranges the claims quantify over, and division by
zero is the one non-finite case). -/
inductive JNum where
  | num (q : ℚ)
  | posInf
  | negInf
  | nan
deriving DecidableEq, Repr

/-- JS division on the modelled fragment: `x / 0` is `Infinity` for
positive `x`, `-Infinity` for negative `x`, `NaN` for `0 / 0`. -/
def jdiv (a b : ℚ) : JNum :=
  if b = 0 then
    if 0 < a then JNum.posInf else if a < 0 then JNum.negInf else JNum.nan
  else JNum.num (a / b)

/-- JS `Math.min` on the modelled fragment: any NaN gives NaN, otherwise
the infinities behave as extremes. -/
def jmin : JNum → JNum → JNum
  | JNum.nan, _ => JNum.nan
  | _, JNum.nan => JNum.nan
  | JNum.negInf, _ => JNum.negInf
  | _, JNum.negInf => JNum.negInf
  | JNum.posInf, b => b
  | a, JNum.posInf => a
  | JNum.num a, JNum.num b => JNum.num (min a b)

/-- The `getFontSize` closure inside `getButtonSvg`:
`Math.min(maxWidth / (text.length * 0.45), maxFontSize)`. -/
def getFontSize (text : String) (maxWidth maxFontSize : ℚ) : JNum :=
  jmin (jdiv maxWidth ((text.length : ℚ) * 0.45)) (JNum.num maxFontSize)

/-- One `<text>` element of the rendered icon. -/
structure SvgText where
  fontSize : JNum
  content : String
deriving DecidableEq, Repr

/-- Structural model of the SVG string built by `getButtonSvg`: the fixed
144×144 canvas, the background `<rect>` fill, the centered count line
(`"{count} Tasks"`, width 140, max font size 40) and the centered label
line (`item_name`, width 140, max font size 28). -/
structure ButtonSvg where
  width : Nat
  height : Nat
  fill : String
  mainLine : SvgText
  labelLine : SvgText
deriving DecidableEq, Repr

/-- `TodoistMonitor.getButtonSvg`, with the template string carried
structurally. -/
def getButtonSvg (taskCount : Nat) (settings : QuerySettings) : ButtonSvg :=
  let mainText := toString taskCount ++ " Tasks"
  let backgroundColor := getColor (taskCount : Int) settings
  { width := 144, height := 144, fill := backgroundColor,
    mainLine := { fontSize := getFontSize mainText 140 40, content := mainText },
    labelLine := { fontSize := getFontSize settings.item_name 140 28,
                   content := settings.item_name } }

/-- The part of an HTTP response `getTasks` inspects: `ok`, `statusText`,
and the body parsed as a task list. -/
structure HttpResponse where
  ok : Bool
  statusText : String
  tasks : List RemoteTask
deriving DecidableEq, Repr

/-- The error thrown by `getTasks` on a non-success response (the spec's
`RemoteQueryError`); carries the thrown message. -/
inductive RemoteQueryError where
  | fetchError (message : String)
deriving DecidableEq, Repr

/-- The remote service and transport, modelled as a function from the
request data (bearer token and filter expression) to the response. -/
structure FetchEnv where
  respond : String → String → HttpResponse

/-- `TodoistMonitor.getTasks`: performs the remote query; a non-ok response
throws `Error fetching tasks: {statusText}`, otherwise the parsed task list
is returned. -/
def getTasks (env : FetchEnv) (apiToken : String) (item_filter : String) :
    Except RemoteQueryError (List RemoteTask) :=
  let response := env.respond apiToken item_filter
  if response.ok then Except.ok response.tasks
  else Except.error (RemoteQueryError.fetchError
    ("Error fetching tasks: " ++ response.statusText))

/-- A call from the plugin back to the host. -/
inductive HostCall where
  | setImage (svg : ButtonSvg)
deriving DecidableEq, Repr

/-- `TodoistMonitor.updateButton`: fetch the tasks for the configured
filter with the global token, render the SVG from the count, and hand it
to the host via `setImage`; a fetch failure propagates and no `setImage`
happens. -/
def updateButton (env : FetchEnv) (globalSettings : TodoistSettings)
    (settings : QuerySettings) : Except RemoteQueryError HostCall := do
  let tasks ← getTasks env globalSettings.apiToken settings.item_filter
  return HostCall.setImage (getButtonSvg tasks.length settings)

/-- A host request issued by a lifecycle handler. `getSettings` models
`ev.action.getSettings()`, the settings-refresh signal. -/
inductive Effect where
  | getSettings (actionId : String)
deriving DecidableEq, Repr

/-- The mutable state of the `TodoistMonitor` instance: the `intervals`
map (association list from action id to timer handle) plus a counter
supplying fresh timer handles for `setInterval`. -/
structure PollerState where
  intervals : List (String × Nat)
  nextTimer : Nat
deriving DecidableEq, Repr

/-- A `WillAppearEvent`: the action instance id and its settings. -/
structure AppearEvent where
  actionId : String
  settings : QuerySettings
deriving DecidableEq, Repr

/-- `this.intervals.has(id)`. -/
def hasTimer (intervals : List (String × Nat)) (actionId : String) : Bool :=
  intervals.any (fun p => p.1 == actionId)

/-- Number of timers registered for an id (a real map has at most one
entry per key; the count makes "exactly one timer" a provable statement
rather than a modelling assumption). -/
def timersFor (intervals : List (String × Nat)) (actionId : String) : Nat :=
  (intervals.filter (fun p => p.1 == actionId)).length

/-- `TodoistMonitor.startTimerIfNeeded`: register a fresh interval timer
for the event's action id unless one is already registered. -/
def startTimerIfNeeded (s : PollerState) (ev : AppearEvent) : PollerState :=
  if hasTimer s.intervals ev.actionId then s
  else { intervals := (ev.actionId, s.nextTimer) :: s.intervals,
         nextTimer := s.nextTimer + 1 }

/-- `TodoistMonitor.onWillAppear`: start the 60-second timer if needed,
then, when the filter expression is truthy (non-empty), issue one
`getSettings` refresh request. Returns the new state and the host requests
issued. -/
def onWillAppear (s : PollerState) (ev : AppearEvent) :
    PollerState × List Effect :=
  let s' := startTimerIfNeeded s ev
  (s', if ev.settings.item_filter ≠ "" then [Effect.getSettings ev.actionId] else [])

/-- `TodoistMonitor.onWillDisappear`: clear and remove the timer for the
id when present. -/
def onWillDisappear (s : PollerState) (actionId : String) : PollerState :=
  if hasTimer s.intervals actionId then
    { s with intervals := s.intervals.filter (fun p => !(p.1 == actionId)) }
  else s

/-- Number of `getSettings` requests in a list of host requests. -/
def countGetSettings (effects : List Effect) : Nat :=
  (effects.filter (fun e => match e with | Effect.getSettings _ => true)).length

/-- The all-empty settings record, used to build concrete configurations. -/
def emptySettings : QuerySettings :=
  { item_name := "", item_filter := "",
    g_cutoff_1 := none, g_cutoff_2 := none, g_cutoff_3 := none,
    g_color_1 := none, g_color_2 := none, g_color_3 := none, g_color_4 := none,
    b_cutoff_1 := none, b_cutoff_2 := none, b_cutoff_3 := none,
    b_color_1 := none, b_color_2 := none, b_color_3 := none, b_color_4 := none }

/-- Concrete ladder-G configuration with cutoffs (10, 5, 2). -/
def cfgG : QuerySettings :=
  { emptySettings with g_cutoff_1 := some 10, g_cutoff_2 := some 5, g_cutoff_3 := some 2 }

/-- Concrete ladder-B configuration with cutoffs (10, 5, 2). -/
def cfgB : QuerySettings :=
  { emptySettings with b_cutoff_1 := some 10, b_cutoff_2 := some 5, b_cutoff_3 := some 2 }

/-- Configuration with both first cutoffs set. -/
def cfgGB : QuerySettings :=
  { cfgG with b_cutoff_1 := some 1, b_color_1 := some "black" }

/-- Same ladder-G fields as `cfgGB`, different ladder-B fields. -/
def cfgGB' : QuerySettings :=
  { cfgG with b_cutoff_1 := some 7, b_cutoff_2 := some 3, b_color_1 := some "blue" }

/-- Fresh poller state: no timers registered. -/
def pollerInit : PollerState := { intervals := [], nextTimer := 0 }

/-- A concrete appearance event with a non-empty filter. -/
def evToday : AppearEvent :=
  { actionId := "key-1", settings := { emptySettings with item_filter := "today" } }

/-- A concrete environment whose remote call always fails with a 403. -/
def envFail : FetchEnv :=
  { respond := fun _ _ => { ok := false, statusText := "Forbidden", tasks := [] } }

/-- A concrete global-settings record. -/
def globalsA : TodoistSettings := { apiToken := "tok" }

@[simp] theorem numTruthy_some (n : Int) : numTruthy (some n) = (n != 0) := rfl

@[simp] theorem numTruthy_none : numTruthy none = false := rfl

@[simp] theorem numValue_some (n : Int) : numValue (some n) = n := rfl

@[simp] theorem numValue_none : numValue none = 0 := rfl

/-- C1: when ladder G's first cutoff is set (truthy), `getColor` follows the
spec's ladder G exactly; with cutoffs (10, 5, 2), counts 15, 7, 3, 1 map to
the four slots (defaults green, yellow, orange, red). -/
theorem getColor_ladderG (count : ℕ) (s : QuerySettings)
    (h : numTruthy s.g_cutoff_1 = true) :
    getColor (count : Int) s = ladderG_spec (count : Int) s ∧
    (s.g_cutoff_1 = some 10 → s.g_cutoff_2 = some 5 → s.g_cutoff_3 = some 2 →
      getColor 15 s = strOr s.g_color_1 "green" ∧
      getColor 7 s = strOr s.g_color_2 "yellow" ∧
      getColor 3 s = strOr s.g_color_3 "orange" ∧
      getColor 1 s = strOr s.g_color_4 "red") := by
  constructor
  · simp [getColor, ladderG_spec, h]
  · intro h1 h2 h3
    refine ⟨?_, ?_, ?_, ?_⟩ <;> norm_num [getColor, h1, h2, h3]

/-- Witness for C1 at the concrete (10, 5, 2) ladder-G configuration. -/
theorem getColor_ladderG_witness :
    numTruthy cfgG.g_cutoff_1 = true ∧
    (getColor 15 cfgG = "green" ∧ getColor 7 cfgG = "yellow" ∧
      getColor 3 cfgG = "orange" ∧ getColor 1 cfgG = "red") := by
  refine ⟨by decide, ?_⟩
  have h := (getColor_ladderG 0 cfgG (by decide)).2 rfl rfl rfl
  exact ⟨h.1, h.2.1, h.2.2.1, h.2.2.2⟩

/-- C2: when ladder G's first cutoff is not set but ladder B's is, `getColor`
follows the spec's ladder B exactly — the default color order (red, orange,
yellow, green) is the inversion of ladder G's; with cutoffs (10, 5, 2),
count 15 maps to the red slot and count 1 to the green slot. -/
theorem getColor_ladderB (count : ℕ) (s : QuerySettings)
    (hg : numTruthy s.g_cutoff_1 = false) (hb : numTruthy s.b_cutoff_1 = true) :
    getColor (count : Int) s = ladderB_spec (count : Int) s ∧
    (s.b_cutoff_1 = some 10 → s.b_cutoff_2 = some 5 → s.b_cutoff_3 = some 2 →
      getColor 15 s = strOr s.b_color_1 "red" ∧
      getColor 7 s = strOr s.b_color_2 "orange" ∧
      getColor 3 s = strOr s.b_color_3 "yellow" ∧
      getColor 1 s = strOr s.b_color_4 "green") := by
  constructor
  · simp [getColor, ladderB_spec, hg, hb]
  · intro h1 h2 h3
    refine ⟨?_, ?_, ?_, ?_⟩ <;> norm_num [getColor, hg, h1, h2, h3]

/-- Witness for C2 at the concrete (10, 5, 2) ladder-B configuration. -/
theorem getColor_ladderB_witness :
    numTruthy cfgB.g_cutoff_1 = false ∧ numTruthy cfgB.b_cutoff_1 = true ∧
    (getColor 15 cfgB = "red" ∧ getColor 1 cfgB = "green") := by
  refine ⟨by decide, by decide, ?_⟩
  have h := (getColor_ladderB 0 cfgB (by decide) (by decide)).2 rfl rfl rfl
  exact ⟨h.1, h.2.2.2⟩

/-- C3: when ladder G's first cutoff is set, the result of `getColor` is
determined entirely by the ladder-G fields: two configurations agreeing on
all eight ladder-G fields (with ladder B's first cutoff set in both, and
all ladder-B fields arbitrary) yield the same color. -/
theorem getColor_g_precedence (count : ℕ) (s t : QuerySettings)
    (hg : numTruthy s.g_cutoff_1 = true)
    (_hb : numTruthy s.b_cutoff_1 = true) (_hb' : numTruthy t.b_cutoff_1 = true)
    (e1 : s.g_cutoff_1 = t.g_cutoff_1) (e2 : s.g_cutoff_2 = t.g_cutoff_2)
    (e3 : s.g_cutoff_3 = t.g_cutoff_3)
    (f1 : s.g_color_1 = t.g_color_1) (f2 : s.g_color_2 = t.g_color_2)
    (f3 : s.g_color_3 = t.g_color_3) (f4 : s.g_color_4 = t.g_color_4) :
    getColor (count : Int) s = getColor (count : Int) t := by
  rw [e1] at hg
  simp [getColor, e1, e2, e3, f1, f2, f3, f4, hg]

/-- Witness for C3: a ladder-B-only change does not alter the color. -/
theorem getColor_g_precedence_witness :
    numTruthy cfgGB.g_cutoff_1 = true ∧ numTruthy cfgGB.b_cutoff_1 = true ∧
    numTruthy cfgGB'.b_cutoff_1 = true ∧
    getColor 3 cfgGB = getColor 3 cfgGB' :=
  ⟨by decide, by decide, by decide,
    getColor_g_precedence 3 cfgGB cfgGB' (by decide) (by decide) (by decide)
      rfl rfl rfl rfl rfl rfl rfl⟩

/-- C4: when neither first cutoff is set (truthy), the color is white. -/
theorem getColor_white (count : ℕ) (s : QuerySettings)
    (hg : numTruthy s.g_cutoff_1 = false) (hb : numTruthy s.b_cutoff_1 = false) :
    getColor (count : Int) s = "white" := by
  simp [getColor, hg, hb]

/-- Witness for C4 at the all-empty configuration. -/
theorem getColor_white_witness :
    numTruthy emptySettings.g_cutoff_1 = false ∧
    numTruthy emptySettings.b_cutoff_1 = false ∧
    getColor 5 emptySettings = "white" :=
  ⟨by decide, by decide, getColor_white 5 emptySettings (by decide) (by decide)⟩

/-- C9: a cutoff stored as 0 behaves exactly like an unset cutoff: a zero
first ladder-G cutoff skips ladder G entirely, and a zero second or third
cutoff (in either ladder) skips that rung even though every count is ≥ 0. -/
theorem getColor_zero_cutoff_unset (count : ℕ) (s : QuerySettings) :
    getColor (count : Int) { s with g_cutoff_1 := some 0 } =
      getColor (count : Int) { s with g_cutoff_1 := none } ∧
    getColor (count : Int) { s with g_cutoff_2 := some 0 } =
      getColor (count : Int) { s with g_cutoff_2 := none } ∧
    getColor (count : Int) { s with g_cutoff_3 := some 0 } =
      getColor (count : Int) { s with g_cutoff_3 := none } ∧
    getColor (count : Int) { s with b_cutoff_2 := some 0 } =
      getColor (count : Int) { s with b_cutoff_2 := none } ∧
    getColor (count : Int) { s with b_cutoff_3 := some 0 } =
      getColor (count : Int) { s with b_cutoff_3 := none } := by
  refine ⟨?_, ?_, ?_, ?_, ?_⟩ <;> simp [getColor]

/-- Helper: an id with no registered timers is absent from the map. -/
theorem hasTimer_false_of_no_timers (l : List (String × Nat)) (id : String)
    (h : timersFor l id = 0) : hasTimer l id = false := by
  induction l with
  | nil => rfl
  | cons a l ih =>
    by_cases hp : (a.1 == id) = true
    · simp [timersFor, List.filter, hp] at h
    · simp only [timersFor, List.filter, hp] at h
      simpa [hasTimer, hp] using ih h

/-- C5: when the remote response is not ok, the fetch step fails and the
whole `updateButton` pipeline rejects with the `RemoteQueryError` built
from the status text; in particular it never produces a `setImage` call. -/
theorem updateButton_fetch_failure (env : FetchEnv) (g : TodoistSettings)
    (s : QuerySettings) (h : (env.respond g.apiToken s.item_filter).ok = false) :
    updateButton env g s = Except.error (RemoteQueryError.fetchError
      ("Error fetching tasks: " ++ (env.respond g.apiToken s.item_filter).statusText)) ∧
    ∀ call : HostCall, updateButton env g s ≠ Except.ok call := by
  have hget : getTasks env g.apiToken s.item_filter =
      Except.error (RemoteQueryError.fetchError
        ("Error fetching tasks: " ++ (env.respond g.apiToken s.item_filter).statusText)) := by
    simp [getTasks, h]
  refine ⟨?_, ?_⟩
  · simp [updateButton, hget, Bind.bind, Except.bind]
  · intro call
    simp [updateButton, hget, Bind.bind, Except.bind]

/-- Witness for C5: a 403 environment makes the pipeline reject. -/
theorem updateButton_fetch_failure_witness :
    (envFail.respond globalsA.apiToken evToday.settings.item_filter).ok = false ∧
    updateButton envFail globalsA evToday.settings =
      Except.error (RemoteQueryError.fetchError "Error fetching tasks: Forbidden") :=
  ⟨rfl, (updateButton_fetch_failure envFail globalsA evToday.settings rfl).1⟩

/-- C6: `onWillAppear` is idempotent for timer registration: starting from
a state with no timer for the id, one appearance registers exactly one
timer, and a second appearance for the same id leaves the state (hence the
timer map) unchanged. -/
theorem onWillAppear_timer_idempotent (s : PollerState) (ev1 ev2 : AppearEvent)
    (hid : ev2.actionId = ev1.actionId)
    (h0 : timersFor s.intervals ev1.actionId = 0) :
    timersFor (onWillAppear s ev1).1.intervals ev1.actionId = 1 ∧
    (onWillAppear (onWillAppear s ev1).1 ev2).1 = (onWillAppear s ev1).1 := by
  have hfalse := hasTimer_false_of_no_timers _ _ h0
  have hstate : (onWillAppear s ev1).1 =
      { intervals := (ev1.actionId, s.nextTimer) :: s.intervals,
        nextTimer := s.nextTimer + 1 } := by
    simp [onWillAppear, startTimerIfNeeded, hfalse]
  refine ⟨?_, ?_⟩
  · rw [hstate]
    simpa [timersFor, List.filter] using h0
  · have htrue : hasTimer (onWillAppear s ev1).1.intervals ev2.actionId = true := by
      rw [hstate, hid]
      simp [hasTimer]
    have hrfl : (onWillAppear (onWillAppear s ev1).1 ev2).1 =
        startTimerIfNeeded (onWillAppear s ev1).1 ev2 := rfl
    rw [hrfl]
    unfold startTimerIfNeeded
    rw [if_pos htrue]

/-- Witness for C6 at a fresh poller state and a concrete event. -/
theorem onWillAppear_timer_idempotent_witness :
    timersFor pollerInit.intervals evToday.actionId = 0 ∧
    (timersFor (onWillAppear pollerInit evToday).1.intervals evToday.actionId = 1 ∧
      (onWillAppear (onWillAppear pollerInit evToday).1 evToday).1 =
        (onWillAppear pollerInit evToday).1) :=
  ⟨rfl, onWillAppear_timer_idempotent pollerInit evToday evToday rfl rfl⟩

/-- C7: an appearance issues exactly one immediate `getSettings` refresh
request when the filter expression is non-empty and none when it is empty,
and in both cases the timer for the id is scheduled afterwards. -/
theorem onWillAppear_immediate_refresh (s : PollerState) (ev : AppearEvent) :
    countGetSettings (onWillAppear s ev).2 =
      (if ev.settings.item_filter ≠ "" then 1 else 0) ∧
    hasTimer (onWillAppear s ev).1.intervals ev.actionId = true := by
  refine ⟨?_, ?_⟩
  · by_cases h : ev.settings.item_filter = "" <;>
      simp [onWillAppear, countGetSettings, List.filter, h]
  · have hrfl : (onWillAppear s ev).1 = startTimerIfNeeded s ev := rfl
    rw [hrfl]
    unfold startTimerIfNeeded
    by_cases h : hasTimer s.intervals ev.actionId = true
    · rw [if_pos h]
      exact h
    · rw [if_neg h]
      simp [hasTimer]

/-- C8: for non-empty text the computed font size is finite and equals the
spec formula `min(width / (textLength × 0.45), maxSize)`; at the count
line's parameters (text `"5 Tasks"` of length 7, width 140, max 40) it is
exactly 40. -/
theorem getFontSize_formula (text : String) (w m : ℚ) (h : 1 ≤ text.length) :
    getFontSize text w m = JNum.num (min (w / ((text.length : ℚ) * 0.45)) m) ∧
    getFontSize "5 Tasks" 140 40 = JNum.num 40 := by
  constructor
  · have h1 : (0:ℚ) < (text.length : ℚ) := by exact_mod_cast h
    have hb : ((text.length : ℚ) * 0.45) ≠ 0 := by
      have hpos : (0:ℚ) < (text.length : ℚ) * 0.45 := by
        apply mul_pos h1
        norm_num
      exact ne_of_gt hpos
    simp [getFontSize, jdiv, jmin, hb]
  · have hl : ("5 Tasks" : String).length = 7 := rfl
    simp only [getFontSize, hl]
    norm_num [jdiv, jmin, min_def]

/-- Witness for C8 at the count line's concrete parameters. -/
theorem getFontSize_formula_witness :
    1 ≤ ("5 Tasks").length ∧ getFontSize "5 Tasks" 140 40 = JNum.num 40 :=
  ⟨by decide, (getFontSize_formula "5 Tasks" 140 40 (by decide)).2⟩

/-- C10: with an empty display label the font-size divisor is 0, the JS
division yields positive infinity, `Math.min` picks the line's maximum,
and `getButtonSvg` still returns a well-formed icon whose label font size
is the maximum 28. -/
theorem getButtonSvg_empty_label (count : ℕ) (s : QuerySettings)
    (h : s.item_name = "") :
    (s.item_name.length : ℚ) * 0.45 = 0 ∧
    jdiv 140 ((s.item_name.length : ℚ) * 0.45) = JNum.posInf ∧
    (getButtonSvg count s).labelLine.fontSize = JNum.num 28 := by
  refine ⟨?_, ?_, ?_⟩ <;> norm_num [getButtonSvg, getFontSize, jdiv, jmin, h]

/-- Witness for C10 at the all-empty configuration. -/
theorem getButtonSvg_empty_label_witness :
    emptySettings.item_name = "" ∧
    (getButtonSvg 5 emptySettings).labelLine.fontSize = JNum.num 28 :=
  ⟨rfl, (getButtonSvg_empty_label 5 emptySettings rfl).2.2⟩
